import Mathlib

/-!
Verification development for the VK Cloud interface manager
(files `vk_cloud_interface_manager.py` and `cleanup_ports.py`).

The Python sources are embedded shallowly: pure functions become Lean
functions, and the stateful iteration logic becomes explicit state
passing driven by an environment record supplying the outcomes of the
remote calls and the operator's interrupt signal.  Remote detach and
delete calls are recorded in an action trace so that statements about
which interfaces were targeted can be made precise.  Address strings
are modelled as lists of characters so that the splitting and parsing
in `ip_to_int` stays kernel-computable; opaque port identifiers are
plain `String`s, compared only for equality as in the source.
-/

namespace VKCloud

/-- Address strings (dotted-decimal text) are lists of characters. -/
abbrev PyStr := List Char

/-! ## Address arithmetic: `ip_to_int`, `check_ip_in_range` -/

/-- Model of Python `str.split('.')`: fields between dots, keeping
empty fields, so the result is always nonempty. -/
def splitDot (cs : PyStr) : List PyStr :=
  match cs with
  | [] => [[]]
  | c :: rest =>
    let r := splitDot rest
    if c = '.' then [] :: r
    else
      match r with
      | [] => [[c]]
      | f :: fs => (c :: f) :: fs

/-- Numeric value of a decimal digit character. -/
def digitVal (c : Char) : Nat := c.toNat - ('0').toNat

/-- Value of a digit string read in base ten. -/
def digitsVal (cs : PyStr) : Nat :=
  cs.foldl (fun acc c => acc * 10 + digitVal c) 0

/-- Model of Python `int(s)`: strip surrounding spaces, allow one
leading sign, then require a nonempty run of decimal digits.  The
result is `none` exactly where Python `int` raises `ValueError`. -/
def pyIntChars? (cs : PyStr) : Option Int :=
  let t := ((cs.dropWhile (fun c => c = ' ')).reverse.dropWhile
    (fun c => c = ' ')).reverse
  match t with
  | [] => none
  | '-' :: ds =>
    if ds ≠ [] ∧ ds.all Char.isDigit then some (-(digitsVal ds : Int)) else none
  | '+' :: ds =>
    if ds ≠ [] ∧ ds.all Char.isDigit then some ((digitsVal ds : Int)) else none
  | ds =>
    if ds.all Char.isDigit then some ((digitsVal ds : Int)) else none

/-- Embedding of `ip_to_int`: split on dots, convert the first four
fields with `int`, and combine them shifted by 24, 16, 8 and 0 bits
(the shifts are written as multiplications).  `none` models the
exceptions Python raises: IndexError when fewer than four fields
exist, ValueError when a used field is not numeric. -/
def ip_to_int (ip : PyStr) : Option Int :=
  match splitDot ip with
  | p0 :: p1 :: p2 :: p3 :: _ =>
    match pyIntChars? p0, pyIntChars? p1, pyIntChars? p2, pyIntChars? p3 with
    | some a, some b, some c, some d =>
      some (a * 16777216 + b * 65536 + c * 256 + d)
    | _, _, _, _ => none
  | _ => none

/-- Embedding of `check_ip_in_range`: the numeric interval test, with
every exception from the conversions caught and turned into `False`. -/
def check_ip_in_range (ip range_start range_end : PyStr) : Bool :=
  match ip_to_int ip, ip_to_int range_start, ip_to_int range_end with
  | some i, some s, some e => decide (s ≤ i ∧ i ≤ e)
  | _, _, _ => false

/-- Embedding of `is_ip_in_allowed_ranges`, with the two configured
range boundary pairs passed explicitly rather than read from module
globals. -/
def is_ip_in_allowed_ranges (r1s r1e r2s r2e ip : PyStr) : Bool :=
  if check_ip_in_range ip r1s r1e then true
  else if check_ip_in_range ip r2s r2e then true
  else false

/-- The 32-bit value of a dotted quad with octets `a0.a1.a2.a3`. -/
def ipValue (a0 a1 a2 a3 : Nat) : Int :=
  ((a0 * 16777216 + a1 * 65536 + a2 * 256 + a3 : Nat) : Int)

/-- Lexicographic order on octet quadruples. -/
def octLe (a0 a1 a2 a3 b0 b1 b2 b3 : Nat) : Prop :=
  a0 < b0 ∨ (a0 = b0 ∧ (a1 < b1 ∨ (a1 = b1 ∧
    (a2 < b2 ∨ (a2 = b2 ∧ a3 ≤ b3)))))

instance (a0 a1 a2 a3 b0 b1 b2 b3 : Nat) :
    Decidable (octLe a0 a1 a2 a3 b0 b1 b2 b3) := by
  unfold octLe; infer_instance

/-- Modelled from the spec: a well-formed dotted-decimal address has
exactly four dot-separated fields, each a nonempty digit string whose
value is at most 255.  (The source has no such predicate; this renders
the spec's phrase "well-formed dotted-decimal numeric string" so that
the classifier's behaviour on malformed input can be stated.) -/
def wellFormedIPv4 (cs : PyStr) : Bool :=
  match splitDot cs with
  | [a, b, c, d] =>
    (a ≠ [] ∧ a.all Char.isDigit ∧ digitsVal a ≤ 255) ∧
    (b ≠ [] ∧ b.all Char.isDigit ∧ digitsVal b ≤ 255) ∧
    (c ≠ [] ∧ c.all Char.isDigit ∧ digitsVal c ≤ 255) ∧
    (d ≠ [] ∧ d.all Char.isDigit ∧ digitsVal d ≤ 255)
  | _ => false

/-! ## Port information: `extract_ip` -/

/-- The slice of a port record that `extract_ip` inspects: the list of
`fixed_ips` entries, each carrying an optional `ip_address`. -/
structure PortData where
  fixed_ips : List (Option PyStr)
deriving DecidableEq

/-- Embedding of `extract_ip`: the `ip_address` of the first
`fixed_ips` entry, or `none` when the list is empty (or the entry has
no address). -/
def extract_ip (p : PortData) : Option PyStr :=
  match p.fixed_ips with
  | [] => none
  | x :: _ => x

/-! ## Cloud client error handling: `detach_port_from_vm`, `delete_port` -/

/-- Outcome of one HTTP request: a status code, or a transport-level
exception raised by the request itself. -/
inductive HttpResult where
  | status (code : Nat)
  | connError
deriving DecidableEq

/-- Embedding of `detach_port_from_vm`: `raise_for_status` raises on
any 4xx/5xx status, the surrounding handler catches every exception
and returns `False`; otherwise the function returns `True`. -/
def detach_port_from_vm (r : HttpResult) : Bool :=
  match r with
  | .connError => false
  | .status c => !(decide (400 ≤ c) && decide (c < 600))

/-- Embedding of `delete_port`: identical error handling to
`detach_port_from_vm`. -/
def delete_port (r : HttpResult) : Bool :=
  match r with
  | .connError => false
  | .status c => !(decide (400 ≤ c) && decide (c < 600))

/-! ## Retry policy: `create_session` -/

/-- Model of `os.getenv(name, default)`: the variable's value when
set, the default otherwise. -/
def getenvD (v : Option PyStr) (d : PyStr) : PyStr := v.getD d

/-- Model of `int(os.getenv(name, default))`. -/
def env_int (v : Option PyStr) (d : PyStr) : Option Int :=
  pyIntChars? (getenvD v d)

/-- `IP_WAIT_TIMEOUT = int(os.getenv('IP_WAIT_TIMEOUT', '60'))`. -/
def IP_WAIT_TIMEOUT (v : Option PyStr) : Option Int := env_int v (('6') :: ('0') :: [])

/-- `CHECK_INTERVAL = int(os.getenv('CHECK_INTERVAL', '2'))`. -/
def CHECK_INTERVAL (v : Option PyStr) : Option Int := env_int v (('2') :: [])

/-- `MAX_RETRIES = int(os.getenv('MAX_RETRIES', '3'))`. -/
def MAX_RETRIES (v : Option PyStr) : Option Int := env_int v (('3') :: [])

/-! ## The attempt (`run_iteration`) and its teardown

The global mutable state of the manager is `created_ports` (a list of
port ids) and `shutdown_requested` (a flag set only by the SIGINT
handler).  The environment below supplies the outcome of each remote
call and tells whether a SIGINT arrived before each point at which the
code reads `shutdown_requested`; the flag's observed value is threaded
through the run as the running disjunction of those arrivals.  The
trace records every detach and delete call issued. -/

/-- A detach or delete call issued against a port id. -/
inductive Action where
  | detach (pid : String)
  | delete (pid : String)
deriving DecidableEq

/-- The port id an action targets. -/
def Action.target : Action → String
  | .detach p => p
  | .delete p => p

/-- The configuration `run_iteration` reads: how many ports to create
per attempt and the two address ranges. -/
structure Config where
  NUM_PORTS : Nat
  r1s : PyStr
  r1e : PyStr
  r2s : PyStr
  r2e : PyStr

/-- Environment of one `run_iteration` call: `createResult i` is the
port id returned by the i-th `create_port` (or `none` on failure),
`signal k` tells whether a SIGINT arrived before the k-th read of
`shutdown_requested`, `portInfo r pid` is what `get_port_info`
returns for port `pid` in poll round `r`, and `rounds` is how many
poll rounds fit into `IP_WAIT_TIMEOUT`. -/
structure Env where
  createResult : Nat → Option String
  signal : Nat → Bool
  portInfo : Nat → String → Option PortData
  rounds : Nat

/-- Observed state of `shutdown_requested`: `k` counts the reads so
far, `sd` is the value seen at the last read. -/
structure Sig where
  k : Nat
  sd : Bool
deriving DecidableEq

/-- One read of `shutdown_requested` (the flag only ever goes from
false to true, so it is the running disjunction of signal arrivals). -/
def checkShutdown (env : Env) (s : Sig) : Sig × Bool :=
  let sd := s.sd || env.signal s.k
  (⟨s.k + 1, sd⟩, sd)

/-- The port-creation loop of `run_iteration`: for each of
`NUM_PORTS` indices, read `shutdown_requested` (raising
KeyboardInterrupt when true, returned as the final flag), call
`create_port`, and on success append the id to both `ports_to_check`
and `created_ports`.  Returns those two lists, the signal state, and
whether the loop was interrupted. -/
def createLoop (env : Env) :
    Nat → Nat → Sig → List String → List String →
    List String × List String × Sig × Bool
  | 0, _, s, ports, created => (ports, created, s, false)
  | n + 1, i, s, ports, created =>
    let (s', sd) := checkShutdown env s
    if sd then (ports, created, s', true)
    else
      match env.createResult i with
      | some pid => createLoop env n (i + 1) s' (ports ++ [pid]) (created ++ [pid])
      | none => createLoop env n (i + 1) s' ports created

/-- The attach loop of `run_iteration`: one `shutdown_requested` read
per port; the boolean result of `attach_port_to_vm` is ignored by the
source, so only the interrupt outcome matters here. -/
def attachLoop (env : Env) : List String → Sig → Sig × Bool
  | [], s => (s, false)
  | _ :: rest, s =>
    let (s', sd) := checkShutdown env s
    if sd then (s', true) else attachLoop env rest s'

/-- One pass of the inner `for port_id in ports_to_check` loop of the
poll phase: query each port in order, skip ports whose lookup fails or
which have no address yet, and return the first port whose address
classifies as in-range, together with that address. -/
def scanRound (cfg : Config) (info : String → Option PortData) :
    List String → Option (String × PyStr)
  | [] => none
  | p :: rest =>
    match info p with
    | none => scanRound cfg info rest
    | some pd =>
      match extract_ip pd with
      | none => scanRound cfg info rest
      | some ip =>
        if is_ip_in_allowed_ranges cfg.r1s cfg.r1e cfg.r2s cfg.r2e ip
        then some (p, ip)
        else scanRound cfg info rest

/-- The poll loop of `run_iteration`: while the deadline has not
elapsed (fuel counts the remaining rounds), read
`shutdown_requested`, scan all ports, and either return the first
match or sleep and repeat.  Fuel running out models
`time.time() - start_time >= IP_WAIT_TIMEOUT`. -/
def pollLoop (cfg : Config) (env : Env) :
    Nat → Nat → Sig → List String →
    Option (String × PyStr) × Sig × Bool
  | 0, _, s, _ => (none, s, false)
  | n + 1, r, s, ports =>
    let (s', sd) := checkShutdown env s
    if sd then (none, s', true)
    else
      match scanRound cfg (env.portInfo r) ports with
      | some m => (some m, s', false)
      | none => pollLoop cfg env n (r + 1) s' ports

/-- The detach-then-delete calls `cleanup_all_ports` issues, one pair
per tracked port, in order. -/
def cleanupActions : List String → List Action
  | [] => []
  | p :: rest => Action.detach p :: Action.delete p :: cleanupActions rest

/-- Embedding of `cleanup_all_ports`: detach and delete every port in
`created_ports` (ignoring the calls' results), then clear the list. -/
def cleanup_all_ports (created : List String) : List Action × List String :=
  (cleanupActions created, [])

/-- The success-path teardown of `run_iteration`: for every port of
the batch other than the matched one, detach it, delete it, and
remove it from `created_ports` (`list.remove` drops the first
occurrence).  The matched port is left untouched. -/
def successTeardown (matched : String) :
    List String → List String → List Action × List String
  | [], created => ([], created)
  | p :: rest, created =>
    if p = matched then successTeardown matched rest created
    else
      let (acts, created') := successTeardown matched rest (created.erase p)
      (Action.detach p :: Action.delete p :: acts, created')

/-- How one `run_iteration` call returned. -/
inductive Outcome where
  | success (pid : String) (ip : PyStr)
  | failure
  | interrupted
deriving DecidableEq

/-- Observable result of one `run_iteration` call: the return value
(with the matched port id exposed), the detach/delete trace, the
`created_ports` global after the call, and the last observed value of
`shutdown_requested`. -/
structure RunOut where
  outcome : Outcome
  actions : List Action
  created_after : List String
  sd_after : Bool
deriving DecidableEq

/-- Embedding of `run_iteration`: create the batch, attach it, poll
for addresses, and resolve every exit path.  KeyboardInterrupt paths
and the no-match deadline call `cleanup_all_ports`; a match triggers
the success teardown of the rest of the batch; a batch that failed to
create anything returns failure without touching `created_ports`
(`g0` is the `created_ports` global at entry, always empty in the
program since every earlier path clears it or exits). -/
def run_iteration (cfg : Config) (env : Env) (g0 : List String) : RunOut :=
  match createLoop env cfg.NUM_PORTS 0 ⟨0, false⟩ [] g0 with
  | (ports, created, s1, int1) =>
    if int1 then
      let (acts, created') := cleanup_all_ports created
      ⟨.interrupted, acts, created', s1.sd⟩
    else if ports.isEmpty then ⟨.failure, [], created, s1.sd⟩
    else
      match attachLoop env ports s1 with
      | (s2, int2) =>
        if int2 then
          let (acts, created') := cleanup_all_ports created
          ⟨.interrupted, acts, created', s2.sd⟩
        else
          match pollLoop cfg env env.rounds 0 s2 ports with
          | (res, s3, int3) =>
            if int3 then
              let (acts, created') := cleanup_all_ports created
              ⟨.interrupted, acts, created', s3.sd⟩
            else
              match res with
              | some (pid, ip) =>
                let (acts, created') := successTeardown pid ports created
                ⟨.success pid ip, acts, created', s3.sd⟩
              | none =>
                let (acts, created') := cleanup_all_ports created
                ⟨.failure, acts, created', s3.sd⟩

/-! ## The orphan pass (`cleanup_ports.py`) -/

/-- The slice of a listed port record that `cleanup` inspects. -/
structure RPort where
  id : String
  device_id : Option String
  fixed_ips : List PyStr
deriving DecidableEq

/-- Python truthiness test `not device_id`: true for a missing or
empty device id. -/
def deviceFalsy (d : Option String) : Bool :=
  match d with
  | none => true
  | some s => s.isEmpty

/-- A detach or delete call issued by the orphan pass. -/
inductive CAction where
  | detachI (pid : String)
  | deleteI (pid : String)
deriving DecidableEq

/-- The port id a reconciler action targets. -/
def CAction.target : CAction → String
  | .detachI p => p
  | .deleteI p => p

/-- Environment of the orphan pass: whether each HTTP delete call
raises a transport exception (any completed response, whatever its
status, is not an exception since neither call checks the status). -/
structure CEnv where
  detach_raises : String → Bool
  delete_raises : String → Bool

/-- Embedding of `detach_and_delete`: the detach request is issued
and any exception from it is swallowed; the delete request is then
always issued, and the function returns `True` exactly when that
delete did not raise. -/
def detach_and_delete (env : CEnv) (pid : String) : List CAction × Bool :=
  ([CAction.detachI pid, CAction.deleteI pid], !env.delete_raises pid)

/-- One body of the `for port in all_ports` loop of `cleanup`: skip a
port carrying `SAFE_IP`; otherwise detach-and-delete it when it is
unattached or attached to the target VM; count a successful delete. -/
def cleanupPort (env : CEnv) (vmid : String) (safe : PyStr) (p : RPort) :
    List CAction × Nat :=
  if safe ∈ p.fixed_ips then ([], 0)
  else if deviceFalsy p.device_id then
    let (a, ok) := detach_and_delete env p.id
    (a, if ok then 1 else 0)
  else if p.device_id = some vmid then
    let (a, ok) := detach_and_delete env p.id
    (a, if ok then 1 else 0)
  else ([], 0)

/-- The full loop of `cleanup` over the listed ports, accumulating the
action trace and the deleted count. -/
def cleanupList (env : CEnv) (vmid : String) (safe : PyStr) :
    List RPort → List CAction × Nat
  | [] => ([], 0)
  | p :: rest =>
    let (a, n) := cleanupPort env vmid safe p
    let (arest, nrest) := cleanupList env vmid safe rest
    (a ++ arest, n + nrest)

/-- Embedding of `cleanup`: a failed listing aborts with no actions;
otherwise every listed port is processed in order. -/
def cleanup (env : CEnv) (vmid : String) (safe : PyStr)
    (listing : Option (List RPort)) : List CAction × Nat :=
  match listing with
  | none => ([], 0)
  | some ports => cleanupList env vmid safe ports

/-! ## `validate_config` and `main` -/

/-- The required configuration variables `validate_config` checks. -/
structure ConfigVars where
  token : Option String
  project_id : Option String
  vm_id : Option String
  external_network_id : Option String

/-- Python truthiness of an environment value: set and nonempty. -/
def truthy (o : Option String) : Bool :=
  match o with
  | none => false
  | some s => !s.isEmpty

/-- Embedding of `validate_config`: collect an error per missing
required variable and succeed exactly when none is missing. -/
def validate_config (c : ConfigVars) : Bool :=
  let errors :=
    (if !truthy c.token then [(0 : Nat)] else []) ++
    (if !truthy c.project_id then [1] else []) ++
    (if !truthy c.vm_id then [2] else []) ++
    (if !truthy c.external_network_id then [3] else [])
  errors.isEmpty

/-- Outcome of one `run_iteration` call as `main` sees it: a match
(returns `True` with the address), a normal failure (returns
`False`), or a KeyboardInterrupt propagating out. -/
inductive IterOutcome where
  | success (ip : PyStr)
  | failure
  | interrupt
deriving DecidableEq

/-- Environment of `main`: the outcome of the i-th iteration
(1-based), and the observed `shutdown_requested` at the loop top
before iteration `i+1` and after a failed iteration `i`. -/
structure MainEnv where
  iter : Nat → IterOutcome
  stopTop : Nat → Bool
  stopAfter : Nat → Bool

/-- The retry loop of `main`, returning the process exit code and the
number of `run_iteration` calls made.  A match exits 0; a
KeyboardInterrupt propagates to the `__main__` guard which exits 0;
a shutdown observed at either check breaks to the final exit 1;
exhausting `MAX_RETRIES` exits 1. -/
def mainLoop (env : MainEnv) : Nat → Nat → Nat × Nat
  | 0, i => (1, i)
  | n + 1, i =>
    if env.stopTop i then (1, i)
    else
      match env.iter (i + 1) with
      | .success _ => (0, i + 1)
      | .interrupt => (0, i + 1)
      | .failure =>
        if env.stopAfter (i + 1) then (1, i + 1)
        else mainLoop env n (i + 1)

/-- Embedding of `main` under the `__main__` guard: invalid
configuration exits 1 having run no iteration (so no remote call);
otherwise the retry loop runs with the configured budget. -/
def main_model (c : ConfigVars) (env : MainEnv) (maxRetries : Nat) :
    Nat × Nat :=
  if validate_config c = false then (1, 0)
  else mainLoop env maxRetries 0

/-! ## Helper lemmas -/

/-- For octets below 256, numeric order of the combined 32-bit values
coincides with lexicographic octet order. -/
theorem ipValue_le_iff_octLe (a0 a1 a2 a3 b0 b1 b2 b3 : Nat)
    (ha1 : a1 < 256) (ha2 : a2 < 256) (ha3 : a3 < 256)
    (hb1 : b1 < 256) (hb2 : b2 < 256) (hb3 : b3 < 256) :
    ipValue a0 a1 a2 a3 ≤ ipValue b0 b1 b2 b3 ↔
      octLe a0 a1 a2 a3 b0 b1 b2 b3 := by
  unfold ipValue octLe
  rw [Int.ofNat_le]
  omega

/-- Every port tracked in `created_ports` receives both a detach and
a delete call from `cleanup_all_ports`. -/
theorem cleanupActions_mem (created : List String) (pid : String)
    (h : pid ∈ created) :
    Action.detach pid ∈ cleanupActions created ∧
    Action.delete pid ∈ cleanupActions created := by
  induction created with
  | nil => cases h
  | cons p rest ih =>
    rcases List.mem_cons.mp h with h1 | h2
    · subst h1
      exact ⟨List.mem_cons_self .., List.mem_cons_of_mem _ (List.mem_cons_self ..)⟩
    · obtain ⟨hd, he⟩ := ih h2
      exact ⟨List.mem_cons_of_mem _ (List.mem_cons_of_mem _ hd),
        List.mem_cons_of_mem _ (List.mem_cons_of_mem _ he)⟩

/-- The create loop appends the same freshly created ids to
`ports_to_check` and to `created_ports`. -/
theorem createLoop_delta (env : Env) (n : Nat) :
    ∀ (i : Nat) (s : Sig) (ports created : List String), ∃ δ : List String,
      (createLoop env n i s ports created).1 = ports ++ δ ∧
      (createLoop env n i s ports created).2.1 = created ++ δ := by
  induction n with
  | zero =>
    intro i s ports created
    exact ⟨[], by simp [createLoop]⟩
  | succ n ih =>
    intro i s ports created
    simp only [createLoop, checkShutdown]
    split
    · exact ⟨[], by simp⟩
    · split
      · next pid _ =>
        obtain ⟨δ, h1, h2⟩ := ih (i + 1) _ (ports ++ [pid]) (created ++ [pid])
        exact ⟨pid :: δ, by simpa using h1, by simpa using h2⟩
      · exact ih (i + 1) _ ports created

/-- With both lists empty at entry — as in the program, where every
earlier path clears `created_ports` — the create loop leaves
`created_ports` equal to the batch. -/
theorem createLoop_created_eq (env : Env) (n i : Nat) (s : Sig) :
    (createLoop env n i s [] []).2.1 = (createLoop env n i s [] []).1 := by
  obtain ⟨δ, h1, h2⟩ := createLoop_delta env n i s [] []
  rw [h1, h2]

/-- No action of the success-path teardown targets the matched port. -/
theorem successTeardown_target (m : String) :
    ∀ (ports created : List String) (a : Action),
      a ∈ (successTeardown m ports created).1 → a.target ≠ m := by
  intro ports
  induction ports with
  | nil =>
    intro created a h
    simp [successTeardown] at h
  | cons p rest ih =>
    intro created a h
    by_cases hp : p = m
    · rw [successTeardown, if_pos hp] at h
      exact ih created a h
    · rcases hst : successTeardown m rest (created.erase p) with ⟨acts, cr⟩
      rw [successTeardown, if_neg hp, hst] at h
      simp only [List.mem_cons] at h
      rcases h with h | h | h
      · subst h; simpa [Action.target] using hp
      · subst h; simpa [Action.target] using hp
      · exact ih (created.erase p) a (by rw [hst]; exact h)

/-- Every non-matched port of the batch gets both a detach and a
delete call on the success path. -/
theorem successTeardown_mem (m : String) :
    ∀ (ports created : List String) (q : String),
      q ∈ ports → q ≠ m →
      Action.detach q ∈ (successTeardown m ports created).1 ∧
      Action.delete q ∈ (successTeardown m ports created).1 := by
  intro ports
  induction ports with
  | nil =>
    intro created q hq
    cases hq
  | cons p rest ih =>
    intro created q hq hqm
    by_cases hp : p = m
    · rw [successTeardown, if_pos hp]
      rcases List.mem_cons.mp hq with h1 | h2
      · exact absurd (h1.trans hp) hqm
      · exact ih created q h2 hqm
    · rcases hst : successTeardown m rest (created.erase p) with ⟨acts, cr⟩
      rw [successTeardown, if_neg hp, hst]
      rcases List.mem_cons.mp hq with h1 | h2
      · subst h1
        exact ⟨List.mem_cons_self .., List.mem_cons_of_mem _ (List.mem_cons_self ..)⟩
      · obtain ⟨hd, he⟩ := ih (created.erase p) q h2 hqm
        rw [hst] at hd he
        exact ⟨List.mem_cons_of_mem _ (List.mem_cons_of_mem _ hd),
          List.mem_cons_of_mem _ (List.mem_cons_of_mem _ he)⟩

/-- A match reported by one scan pass names a port of the batch. -/
theorem scanRound_mem (cfg : Config) (info : String → Option PortData) :
    ∀ (ports : List String) (pid : String) (ip : PyStr),
      scanRound cfg info ports = some (pid, ip) → pid ∈ ports := by
  intro ports
  induction ports with
  | nil =>
    intro pid ip h
    simp [scanRound] at h
  | cons p rest ih =>
    intro pid ip h
    rw [scanRound] at h
    split at h
    · exact List.mem_cons_of_mem _ (ih _ _ h)
    · split at h
      · exact List.mem_cons_of_mem _ (ih _ _ h)
      · split at h
        · simp only [Option.some.injEq, Prod.mk.injEq] at h
          exact h.1 ▸ List.mem_cons_self ..
        · exact List.mem_cons_of_mem _ (ih _ _ h)

/-- A match reported by the poll loop names a port of the batch. -/
theorem pollLoop_mem (cfg : Config) (env : Env) :
    ∀ (n r : Nat) (s : Sig) (ports : List String) (pid : String) (ip : PyStr),
      (pollLoop cfg env n r s ports).1 = some (pid, ip) → pid ∈ ports := by
  intro n
  induction n with
  | zero =>
    intro r s ports pid ip h
    simp [pollLoop] at h
  | succ n ih =>
    intro r s ports pid ip h
    rw [pollLoop] at h
    simp only [checkShutdown] at h
    split at h
    · simp at h
    · split at h
      · next m hm =>
        simp only [Option.some.injEq] at h
        rw [h] at hm
        exact scanRound_mem cfg (env.portInfo r) ports pid ip hm
      · exact ih (r + 1) _ ports pid ip h

/-! ## C1 -/

/-- C1: for every address A and inclusive range [S, E], the classifier
`check_ip_in_range` reports membership exactly when S ≤ A ≤ E with
each dotted-decimal address read as a 32-bit unsigned integer ordered
lexicographically by octet; the boundary addresses are themselves
members, and `is_ip_in_allowed_ranges` holds exactly when one of the
two configured ranges contains the address. -/
theorem C1_range_membership
    (A S E r1s r1e r2s r2e : PyStr)
    (a0 a1 a2 a3 s0 s1 s2 s3 e0 e1 e2 e3 : Nat)
    (hA4 : a0 < 256 ∧ a1 < 256 ∧ a2 < 256 ∧ a3 < 256)
    (hS4 : s0 < 256 ∧ s1 < 256 ∧ s2 < 256 ∧ s3 < 256)
    (hE4 : e0 < 256 ∧ e1 < 256 ∧ e2 < 256 ∧ e3 < 256)
    (hA : ip_to_int A = some (ipValue a0 a1 a2 a3))
    (hS : ip_to_int S = some (ipValue s0 s1 s2 s3))
    (hE : ip_to_int E = some (ipValue e0 e1 e2 e3)) :
    (check_ip_in_range A S E = true ↔
      octLe s0 s1 s2 s3 a0 a1 a2 a3 ∧ octLe a0 a1 a2 a3 e0 e1 e2 e3) ∧
    (octLe s0 s1 s2 s3 e0 e1 e2 e3 →
      check_ip_in_range S S E = true ∧ check_ip_in_range E S E = true) ∧
    (is_ip_in_allowed_ranges r1s r1e r2s r2e A = true ↔
      (check_ip_in_range A r1s r1e = true ∨ check_ip_in_range A r2s r2e = true)) := by
  obtain ⟨ha0, ha1, ha2, ha3⟩ := hA4
  obtain ⟨hs0, hs1, hs2, hs3⟩ := hS4
  obtain ⟨he0, he1, he2, he3⟩ := hE4
  have hsa := ipValue_le_iff_octLe s0 s1 s2 s3 a0 a1 a2 a3 hs1 hs2 hs3 ha1 ha2 ha3
  have hae := ipValue_le_iff_octLe a0 a1 a2 a3 e0 e1 e2 e3 ha1 ha2 ha3 he1 he2 he3
  have hse := ipValue_le_iff_octLe s0 s1 s2 s3 e0 e1 e2 e3 hs1 hs2 hs3 he1 he2 he3
  refine ⟨?_, ?_, ?_⟩
  · unfold check_ip_in_range
    rw [hA, hS, hE]
    simp only [decide_eq_true_eq]
    exact and_congr hsa hae
  · intro h
    have h1 : ipValue s0 s1 s2 s3 ≤ ipValue e0 e1 e2 e3 := hse.mpr h
    constructor
    · unfold check_ip_in_range
      rw [hS, hE]
      simp only [decide_eq_true_eq]
      exact ⟨le_refl _, h1⟩
    · unfold check_ip_in_range
      rw [hE, hS]
      simp only [decide_eq_true_eq]
      exact ⟨h1, le_refl _⟩
  · unfold is_ip_in_allowed_ranges
    rcases h1 : check_ip_in_range A r1s r1e <;>
      rcases h2 : check_ip_in_range A r2s r2e <;> simp [h1, h2]

/-- Witness for C1 at the spec's own scenario range: 10.0.0.15 is a
member of [10.0.0.10, 10.0.0.20], and the lower boundary address is
itself a member. -/
theorem C1_range_membership_witness :
    check_ip_in_range (("10.0.0.15").toList) (("10.0.0.10").toList)
      (("10.0.0.20").toList) = true ∧
    check_ip_in_range (("10.0.0.10").toList) (("10.0.0.10").toList)
      (("10.0.0.20").toList) = true := by
  have h := C1_range_membership (("10.0.0.15").toList) (("10.0.0.10").toList)
    (("10.0.0.20").toList) (("0.0.0.0").toList) (("0.0.0.0").toList)
    (("0.0.0.0").toList) (("0.0.0.0").toList)
    10 0 0 15 10 0 0 10 10 0 0 20
    (by decide) (by decide) (by decide) (by decide) (by decide) (by decide)
  exact ⟨(h.1).mpr (by decide), ((h.2.1) (by decide)).1⟩

/-- Any action one loop body of the orphan pass issues targets that
body's own port, and only when the port does not carry `SAFE_IP`. -/
theorem cleanupPort_target (cenv : CEnv) (vmid : String) (safe : PyStr)
    (p : RPort) (a : CAction) (ha : a ∈ (cleanupPort cenv vmid safe p).1) :
    CAction.target a = p.id ∧ safe ∉ p.fixed_ips := by
  unfold cleanupPort at ha
  by_cases h1 : safe ∈ p.fixed_ips
  · simp [h1] at ha
  · rw [if_neg h1] at ha
    by_cases h2 : deviceFalsy p.device_id = true
    · rw [if_pos h2] at ha
      simp only [detach_and_delete, List.mem_cons, List.not_mem_nil, or_false] at ha
      rcases ha with rfl | rfl <;> exact ⟨rfl, h1⟩
    · rw [if_neg h2] at ha
      by_cases h3 : p.device_id = some vmid
      · rw [if_pos h3] at ha
        simp only [detach_and_delete, List.mem_cons, List.not_mem_nil, or_false] at ha
        rcases ha with rfl | rfl <;> exact ⟨rfl, h1⟩
      · rw [if_neg h3] at ha
        simp at ha

/-- Any action of the orphan pass comes from the loop body of one of
the listed ports. -/
theorem cleanupList_mem (cenv : CEnv) (vmid : String) (safe : PyStr) :
    ∀ (ports : List RPort) (a : CAction),
      a ∈ (cleanupList cenv vmid safe ports).1 →
      ∃ p ∈ ports, a ∈ (cleanupPort cenv vmid safe p).1 := by
  intro ports
  induction ports with
  | nil =>
    intro a ha
    simp [cleanupList] at ha
  | cons p rest ih =>
    intro a ha
    rw [cleanupList] at ha
    rcases h1 : cleanupPort cenv vmid safe p with ⟨ap, np⟩
    rcases h2 : cleanupList cenv vmid safe rest with ⟨ar, nr⟩
    rw [h1, h2] at ha
    simp only [List.mem_append] at ha
    rcases ha with ha | ha
    · exact ⟨p, List.mem_cons_self .., by rw [h1]; exact ha⟩
    · obtain ⟨q, hq, hqa⟩ := ih a (by rw [h2]; exact ha)
      exact ⟨q, List.mem_cons_of_mem _ hq, hqa⟩

/-! ## C2 -/

/-- Protected address used in the concrete runs below. -/
def protIpW : PyStr := ("9.9.9.9").toList

/-- A configuration whose both ranges are [10.0.0.10, 10.0.0.20]. -/
def cfgRangeW : Config :=
  ⟨1, ("10.0.0.10").toList, ("10.0.0.20").toList,
    ("10.0.0.10").toList, ("10.0.0.20").toList⟩

/-- A run environment whose single created port p1 carries the
protected address (out of range), with no operator signal. -/
def envProtW : Env :=
  { createResult := fun _ => some ("p1")
    signal := fun _ => false
    portInfo := fun _ p => if p = ("p1") then some ⟨[some protIpW]⟩ else none
    rounds := 1 }

/-- C2 counterexample: the claim fails for the manager's teardown.
`cleanup_all_ports` has no protected-address guard: in a run whose
single created interface p1 carries the Protected Address 9.9.9.9
(visible to the run through `get_port_info`), the teardown issues both
a detach and a delete call targeting that interface. -/
theorem C2_protected_counterexample :
    extract_ip ⟨[some protIpW]⟩ = some protIpW ∧
    envProtW.portInfo 0 ("p1") = some ⟨[some protIpW]⟩ ∧
    Action.detach ("p1") ∈ (run_iteration cfgRangeW envProtW []).actions ∧
    Action.delete ("p1") ∈ (run_iteration cfgRangeW envProtW []).actions := by
  decide

/-- C2 amended: the Orphan Reconciler never issues a detach or delete
call against an interface carrying the Protected Address (for a
listing with distinct ids, no issued call targets the protected
port's id); the manager's teardown (`cleanup_all_ports`), by
contrast, has no address guard and issues a detach and a delete for
every tracked port whatever address it carries. -/
theorem C2_protected_amended (cenv : CEnv) (vmid : String) (safe : PyStr)
    (ports : List RPort) (p : RPort) (a : CAction)
    (created : List String) (pid : String)
    (hp : p ∈ ports) (hsafe : safe ∈ p.fixed_ips)
    (huniq : ∀ q, q ∈ ports → q.id = p.id → q = p)
    (ha : a ∈ (cleanup cenv vmid safe (some ports)).1)
    (hpid : pid ∈ created) :
    CAction.target a ≠ p.id ∧
    Action.detach pid ∈ (cleanup_all_ports created).1 ∧
    Action.delete pid ∈ (cleanup_all_ports created).1 := by
  obtain ⟨hd, he⟩ := cleanupActions_mem created pid hpid
  refine ⟨?_, hd, he⟩
  intro htgt
  obtain ⟨q, hq, hqa⟩ := cleanupList_mem cenv vmid safe ports a ha
  obtain ⟨hqt, hqsafe⟩ := cleanupPort_target cenv vmid safe q a hqa
  have : q = p := huniq q hq (by rw [← hqt, htgt])
  rw [this] at hqsafe
  exact hqsafe hsafe

/-- One listed port carrying the protected address 9.9.9.9. -/
def rpProtW : RPort := ⟨("prot"), some ("vm1"), [protIpW]⟩

/-- One listed unattached orphan port. -/
def rpOrphanW : RPort := ⟨("o1"), none, [("1.2.3.4").toList]⟩

/-- A reconciler environment in which no remote call raises. -/
def cenvW : CEnv := ⟨fun _ => false, fun _ => false⟩

/-- Witness for the amended C2, realizing the spec's scenario of one
protected interface and one unattached orphan: the orphan's delete
call is in the trace and does not target the protected interface,
while the manager's teardown targets its tracked port p1. -/
theorem C2_protected_amended_witness :
    CAction.target (CAction.deleteI ("o1")) ≠ rpProtW.id ∧
    Action.detach ("p1") ∈ (cleanup_all_ports [("p1")]).1 ∧
    Action.delete ("p1") ∈ (cleanup_all_ports [("p1")]).1 :=
  C2_protected_amended cenvW ("vm1") protIpW [rpProtW, rpOrphanW] rpProtW
    (CAction.deleteI ("o1")) [("p1")] ("p1")
    (by decide) (by decide) (by decide) (by decide) (by decide)

/-! ## C3 -/

/-- C3: every `run_iteration` call, on every exit path it has —
success, failed creation, classification mismatch until the poll
deadline, or an observed shutdown signal — leaves each port it created
in exactly one of two terminal states: Matched (the run returns
success naming it and no detach or delete call ever targets it) or
Deleted (both a detach and a delete call were issued for it). -/
theorem C3_terminal_states (cfg : Config) (env : Env) (pid : String)
    (hpid : pid ∈ (createLoop env cfg.NUM_PORTS 0 ⟨0, false⟩ [] []).1) :
    (∃ ip, (run_iteration cfg env []).outcome = Outcome.success pid ip ∧
        Action.detach pid ∉ (run_iteration cfg env []).actions ∧
        Action.delete pid ∉ (run_iteration cfg env []).actions) ∨
    (Action.detach pid ∈ (run_iteration cfg env []).actions ∧
        Action.delete pid ∈ (run_iteration cfg env []).actions) := by
  have hceq := createLoop_created_eq env cfg.NUM_PORTS 0 ⟨0, false⟩
  unfold run_iteration
  rcases hcl : createLoop env cfg.NUM_PORTS 0 ⟨0, false⟩ [] [] with
    ⟨ports, created, s1, int1⟩
  rw [hcl] at hpid hceq
  dsimp only at hpid hceq ⊢
  rw [hceq]
  clear hceq
  by_cases h1 : int1 = true
  · right
    simp only [h1, if_true, cleanup_all_ports]
    exact cleanupActions_mem ports pid hpid
  · rw [Bool.not_eq_true] at h1
    rw [h1]
    by_cases h2 : ports.isEmpty
    · rw [List.isEmpty_iff] at h2
      subst h2
      cases hpid
    · simp only [Bool.false_eq_true, if_false, h2]
      rcases hal : attachLoop env ports s1 with ⟨s2, int2⟩
      dsimp only
      by_cases h3 : int2 = true
      · right
        simp only [h3, if_true, cleanup_all_ports]
        exact cleanupActions_mem ports pid hpid
      · rw [Bool.not_eq_true] at h3
        rw [h3]
        simp only [Bool.false_eq_true, if_false]
        rcases hpl : pollLoop cfg env env.rounds 0 s2 ports with ⟨res, s3, int3⟩
        dsimp only
        by_cases h4 : int3 = true
        · right
          simp only [h4, if_true, cleanup_all_ports]
          exact cleanupActions_mem ports pid hpid
        · rw [Bool.not_eq_true] at h4
          rw [h4]
          simp only [Bool.false_eq_true, if_false]
          rcases res with _ | ⟨mpid, mip⟩
          · right
            simp only [cleanup_all_ports]
            exact cleanupActions_mem ports pid hpid
          · dsimp only
            by_cases h5 : pid = mpid
            · left
              subst h5
              refine ⟨mip, rfl, ?_, ?_⟩ <;>
                · intro hmem
                  have := successTeardown_target pid ports ports _ hmem
                  simp [Action.target] at this
            · right
              exact successTeardown_mem mpid ports ports pid hpid h5

/-- Witness for C3: a run whose single created port never receives an
address is resolved by teardown — both calls appear in the trace. -/
theorem C3_terminal_states_witness :
    Action.detach ("p1") ∈
      (run_iteration ⟨1, [], [], [], []⟩
        ⟨fun _ => some ("p1"), fun _ => false, fun _ _ => none, 1⟩ []).actions ∧
    Action.delete ("p1") ∈
      (run_iteration ⟨1, [], [], [], []⟩
        ⟨fun _ => some ("p1"), fun _ => false, fun _ _ => none, 1⟩ []).actions := by
  have h := C3_terminal_states ⟨1, [], [], [], []⟩
    ⟨fun _ => some ("p1"), fun _ => false, fun _ _ => none, 1⟩ ("p1") (by decide)
  rcases h with ⟨ip, hout, _, _⟩ | h
  · have hfail : (run_iteration ⟨1, [], [], [], []⟩
        ⟨fun _ => some ("p1"), fun _ => false, fun _ _ => none, 1⟩ []).outcome =
        Outcome.failure := by decide
    rw [hfail] at hout
    exact absurd hout (by simp)
  · exact h

/-! ## C5 -/

/-- When no SIGINT ever arrives, the create loop observes the
shutdown flag as false throughout. -/
theorem createLoop_sd (env : Env) (hsig : ∀ k, env.signal k = false) :
    ∀ (n i : Nat) (s : Sig) (ports created : List String), s.sd = false →
      ((createLoop env n i s ports created).2.2.1).sd = false := by
  intro n
  induction n with
  | zero =>
    intro i s ports created hsd
    simpa [createLoop] using hsd
  | succ n ih =>
    intro i s ports created hsd
    rw [createLoop]
    simp only [checkShutdown, hsd, hsig, Bool.or_self]
    simp only [Bool.false_eq_true, if_false]
    split
    · exact ih (i + 1) _ _ _ rfl
    · exact ih (i + 1) _ _ _ rfl

/-- When no SIGINT ever arrives, the attach loop observes the
shutdown flag as false throughout. -/
theorem attachLoop_sd (env : Env) (hsig : ∀ k, env.signal k = false) :
    ∀ (ports : List String) (s : Sig), s.sd = false →
      ((attachLoop env ports s).1).sd = false := by
  intro ports
  induction ports with
  | nil =>
    intro s hsd
    simpa [attachLoop] using hsd
  | cons p rest ih =>
    intro s hsd
    rw [attachLoop]
    simp only [checkShutdown, hsd, hsig, Bool.or_self]
    simp only [Bool.false_eq_true, if_false]
    exact ih _ rfl

/-- When no SIGINT ever arrives, the poll loop observes the shutdown
flag as false throughout. -/
theorem pollLoop_sd (cfg : Config) (env : Env) (hsig : ∀ k, env.signal k = false) :
    ∀ (n r : Nat) (s : Sig) (ports : List String), s.sd = false →
      ((pollLoop cfg env n r s ports).2.1).sd = false := by
  intro n
  induction n with
  | zero =>
    intro r s ports hsd
    simpa [pollLoop] using hsd
  | succ n ih =>
    intro r s ports hsd
    rw [pollLoop]
    simp only [checkShutdown, hsd, hsig, Bool.or_self]
    simp only [Bool.false_eq_true, if_false]
    split
    · rfl
    · exact ih (r + 1) _ _ rfl

/-- Environment of a run in which the first created port p1 receives
the in-range address 10.0.0.15, a second port p2 also exists, and no
operator signal ever arrives. -/
def envMatchW : Env :=
  { createResult := fun i => if i = 0 then some ("p1") else some ("p2")
    signal := fun _ => false
    portInfo := fun _ p => if p = ("p1") then some ⟨[some (("10.0.0.15").toList)]⟩
      else none
    rounds := 2 }

/-- Two-port variant of the range configuration. -/
def cfgRange2W : Config :=
  ⟨2, ("10.0.0.10").toList, ("10.0.0.20").toList,
    ("10.0.0.10").toList, ("10.0.0.20").toList⟩

/-- C5 counterexample: the matching attempt does not set the Global
Stop Signal. In a run where port p1 receives the in-range address
10.0.0.15, the attempt returns success and tears down only sibling
p2, yet `shutdown_requested` — the only process-wide stop flag, which
`run_iteration` never writes — is still observed false when the call
returns. -/
theorem C5_stop_signal_counterexample :
    (run_iteration cfgRange2W envMatchW []).outcome =
      Outcome.success ("p1") (("10.0.0.15").toList) ∧
    (run_iteration cfgRange2W envMatchW []).sd_after = false ∧
    (run_iteration cfgRange2W envMatchW []).actions =
      [Action.detach ("p2"), Action.delete ("p2")] := by
  decide

/-- C5 amended: when an attempt observes an in-range address it
returns success immediately with the matched interface and address
(the outer retry loop stops because of this return value; no global
stop flag is written, and with no SIGINT the observed shutdown flag
is still false on exit); no issued call targets the matched
interface, and every other interface of the batch receives both a
detach and a delete call. -/
theorem C5_match_behavior (cfg : Config) (env : Env) (mpid : String)
    (mip : PyStr) (q : String) (a : Action)
    (hout : (run_iteration cfg env []).outcome = Outcome.success mpid mip)
    (hq : q ∈ (createLoop env cfg.NUM_PORTS 0 ⟨0, false⟩ [] []).1)
    (hqm : q ≠ mpid)
    (ha : a ∈ (run_iteration cfg env []).actions)
    (hsig : ∀ k, env.signal k = false) :
    a.target ≠ mpid ∧
    Action.detach q ∈ (run_iteration cfg env []).actions ∧
    Action.delete q ∈ (run_iteration cfg env []).actions ∧
    (run_iteration cfg env []).sd_after = false := by
  have hceq := createLoop_created_eq env cfg.NUM_PORTS 0 ⟨0, false⟩
  have hsd1 := createLoop_sd env hsig cfg.NUM_PORTS 0 ⟨0, false⟩ [] [] rfl
  unfold run_iteration at hout ha ⊢
  rcases hcl : createLoop env cfg.NUM_PORTS 0 ⟨0, false⟩ [] [] with
    ⟨ports, created, s1, int1⟩
  rw [hcl] at hout ha hq hceq hsd1
  dsimp only at hout ha hq hceq hsd1 ⊢
  rw [hceq] at ha hout ⊢
  clear hceq
  by_cases h1 : int1 = true
  · rw [h1] at hout
    simp at hout
  · rw [Bool.not_eq_true] at h1
    rw [h1] at hout ha ⊢
    by_cases h2 : ports.isEmpty
    · rw [List.isEmpty_iff] at h2
      subst h2
      cases hq
    · simp only [Bool.false_eq_true, if_false, h2] at hout ha ⊢
      have hsd2 := attachLoop_sd env hsig ports s1 hsd1
      by_cases h3 : (attachLoop env ports s1).2 = true
      · rw [h3] at hout
        simp at hout
      · rw [Bool.not_eq_true] at h3
        rw [h3] at hout ha ⊢
        simp only [Bool.false_eq_true, if_false] at hout ha ⊢
        have hsd3 := pollLoop_sd cfg env hsig env.rounds 0
          (attachLoop env ports s1).1 ports hsd2
        by_cases h4 : (pollLoop cfg env env.rounds 0
            (attachLoop env ports s1).1 ports).2.2 = true
        · rw [h4] at hout
          simp at hout
        · rw [Bool.not_eq_true] at h4
          rw [h4] at hout ha ⊢
          simp only [Bool.false_eq_true, if_false] at hout ha ⊢
          generalize hres : (pollLoop cfg env env.rounds 0
            (attachLoop env ports s1).1 ports).1 = res at hout ha ⊢
          rcases res with _ | ⟨mpid', mip'⟩
          · simp at hout
          · dsimp only at hout ha ⊢
            simp only [Outcome.success.injEq] at hout
            obtain ⟨hm1, hm2⟩ := hout
            subst hm1
            refine ⟨?_, ?_, ?_, hsd3⟩
            · exact successTeardown_target mpid' ports ports a ha
            · exact (successTeardown_mem mpid' ports ports q hq hqm).1
            · exact (successTeardown_mem mpid' ports ports q hq hqm).2

/-- Witness for the amended C5, instantiated at the matching run used
for the counterexample: the delete call on sibling p2 does not target
the matched p1, p2 receives both calls, and the flag stays false. -/
theorem C5_match_behavior_witness :
    (Action.delete ("p2")).target ≠ ("p1") ∧
    Action.detach ("p2") ∈ (run_iteration cfgRange2W envMatchW []).actions ∧
    Action.delete ("p2") ∈ (run_iteration cfgRange2W envMatchW []).actions ∧
    (run_iteration cfgRange2W envMatchW []).sd_after = false :=
  C5_match_behavior cfgRange2W envMatchW ("p1") (("10.0.0.15").toList)
    ("p2") (Action.delete ("p2"))
    (by decide) (by decide) (by decide) (by decide) (fun _ => rfl)

/-! ## C4 -/

/-- C4 counterexample: a "not found" (404) outcome on detach or
delete is not returned as success: `raise_for_status` raises on every
4xx/5xx status, the handler catches the exception, and both client
functions return False — the failure indication. -/
theorem C4_not_found_counterexample :
    detach_port_from_vm (HttpResult.status 404) = false ∧
    delete_port (HttpResult.status 404) = false := by
  decide

/-- C4 amended: every 4xx/5xx response — not-found included — makes
`detach_port_from_vm` and `delete_port` return False (a failure
return, which callers ignore and continue past), while any status
below 400 yields True; an already-absent resource is therefore
surfaced as a failed call, not converted to success. -/
theorem C4_not_found_amended (c : Nat) :
    (400 ≤ c → c < 600 →
      detach_port_from_vm (HttpResult.status c) = false ∧
      delete_port (HttpResult.status c) = false) ∧
    (c < 400 →
      detach_port_from_vm (HttpResult.status c) = true ∧
      delete_port (HttpResult.status c) = true) := by
  constructor
  · intro h1 h2
    simp [detach_port_from_vm, delete_port, h1, h2]
  · intro h
    have h1 : ¬(400 ≤ c) := by omega
    simp [detach_port_from_vm, delete_port, h1]

/-- Witness for the amended C4 at the not-found status 404 and at the
success status 204. -/
theorem C4_not_found_amended_witness :
    (detach_port_from_vm (HttpResult.status 404) = false ∧
      delete_port (HttpResult.status 404) = false) ∧
    (detach_port_from_vm (HttpResult.status 204) = true ∧
      delete_port (HttpResult.status 204) = true) :=
  ⟨(C4_not_found_amended 404).1 (by decide) (by decide),
    (C4_not_found_amended 204).2 (by decide)⟩

/-! ## C6 -/

/-- The trace of the orphan pass is the concatenation of the per-port
traces, whatever the per-port calls' outcomes. -/
theorem cleanupList_flatten (cenv : CEnv) (vmid : String) (safe : PyStr) :
    ∀ ports : List RPort,
      (cleanupList cenv vmid safe ports).1 =
        (ports.map (fun q => (cleanupPort cenv vmid safe q).1)).flatten := by
  intro ports
  induction ports with
  | nil => rfl
  | cons p rest ih =>
    rw [cleanupList]
    rcases h1 : cleanupPort cenv vmid safe p with ⟨ap, np⟩
    rcases h2 : cleanupList cenv vmid safe rest with ⟨ar, nr⟩
    dsimp only
    rw [List.map_cons, List.flatten_cons, h1, ← ih, h2]

/-- C6: the orphan pass treats every listed interface by ownership:
one carrying the protected address is skipped with no calls; an
unattached one is (detached and) deleted; one attached to the target
instance is detached then deleted; one attached to any other device
is untouched; and whether or not any port's detach/delete calls
raise, the pass still processes every listed port — its trace is the
concatenation of the per-port traces, and each per-port trace is
independent of the call outcomes. -/
theorem C6_reconciler_behavior (cenv cenv2 : CEnv) (vmid : String)
    (safe : PyStr) (p : RPort) (ports : List RPort) :
    (safe ∈ p.fixed_ips → cleanupPort cenv vmid safe p = ([], 0)) ∧
    (safe ∉ p.fixed_ips → deviceFalsy p.device_id = true →
      (cleanupPort cenv vmid safe p).1 =
        [CAction.detachI p.id, CAction.deleteI p.id]) ∧
    (safe ∉ p.fixed_ips → deviceFalsy p.device_id = false →
      p.device_id = some vmid →
      (cleanupPort cenv vmid safe p).1 =
        [CAction.detachI p.id, CAction.deleteI p.id]) ∧
    (safe ∉ p.fixed_ips → deviceFalsy p.device_id = false →
      p.device_id ≠ some vmid →
      (cleanupPort cenv vmid safe p).1 = []) ∧
    (cleanup cenv vmid safe (some ports)).1 =
      (ports.map (fun q => (cleanupPort cenv vmid safe q).1)).flatten ∧
    (cleanupPort cenv vmid safe p).1 = (cleanupPort cenv2 vmid safe p).1 := by
  refine ⟨?_, ?_, ?_, ?_, cleanupList_flatten cenv vmid safe ports, ?_⟩
  · intro h
    simp [cleanupPort, h]
  · intro h1 h2
    rw [cleanupPort, if_neg h1, if_pos h2]
    rfl
  · intro h1 h2 h3
    rw [cleanupPort, if_neg h1]
    rw [h2]
    simp only [Bool.false_eq_true, if_false]
    rw [if_pos h3]
    rfl
  · intro h1 h2 h3
    rw [cleanupPort, if_neg h1]
    rw [h2]
    simp only [Bool.false_eq_true, if_false]
    rw [if_neg h3]
  · unfold cleanupPort detach_and_delete
    split_ifs <;> rfl

/-- Witness for C6, realizing the spec's scenario of one protected
interface and one unattached orphan: the orphan is detached and
deleted, the protected interface is skipped with no calls, and the
full pass over both ports issues exactly the orphan's two calls. -/
theorem C6_reconciler_behavior_witness :
    (cleanupPort cenvW ("vm1") protIpW rpOrphanW).1 =
      [CAction.detachI ("o1"), CAction.deleteI ("o1")] ∧
    cleanupPort cenvW ("vm1") protIpW rpProtW = ([], 0) ∧
    (cleanup cenvW ("vm1") protIpW (some [rpProtW, rpOrphanW])).1 =
      ([[], [CAction.detachI ("o1"), CAction.deleteI ("o1")]] :
        List (List CAction)).flatten :=
  ⟨(C6_reconciler_behavior cenvW cenvW ("vm1") protIpW rpOrphanW []).2.1
      (by decide) (by decide),
    (C6_reconciler_behavior cenvW cenvW ("vm1") protIpW rpProtW []).1
      (by decide),
    by
      have h := (C6_reconciler_behavior cenvW cenvW ("vm1") protIpW rpOrphanW
        [rpProtW, rpOrphanW]).2.2.2.2.1
      rw [h]
      decide⟩

/-! ## C7 -/

/-- C8 counterexample: the per-attempt poll deadline defaults to 60
seconds, not 40: with the environment variable unset, the parsed
IP_WAIT_TIMEOUT is 60 and in particular is not 40. -/
theorem C8_poll_defaults_counterexample :
    IP_WAIT_TIMEOUT none = some 60 ∧ IP_WAIT_TIMEOUT none ≠ some 40 := by
  decide

/-- C8 amended: the poll loop queries on a fixed interval whose
default is 2 seconds, and gives up when the per-attempt deadline —
whose default is 60 seconds, distinct from the outer MAX_RETRIES
budget whose default is 3 attempts — elapses without a match: once
the deadline has consumed the last round, the loop reports no match
(after which the attempt tears its batch down). -/
theorem C8_poll_defaults_amended (cfg : Config) (env : Env) (r : Nat)
    (s : Sig) (ports : List String) :
    CHECK_INTERVAL none = some 2 ∧
    IP_WAIT_TIMEOUT none = some 60 ∧
    MAX_RETRIES none = some 3 ∧
    pollLoop cfg env 0 r s ports = (none, s, false) :=
  ⟨by decide, by decide, by decide, rfl⟩

/-! ## C9 -/

/-- If the retry loop of `main` exits with code 0, some iteration it
actually ran returned a match or propagated KeyboardInterrupt. -/
theorem mainLoop_exit_zero (env : MainEnv) :
    ∀ (n i : Nat), (mainLoop env n i).1 = 0 →
      ∃ j, i < j ∧ j ≤ i + n ∧
        ((∃ ip, env.iter j = IterOutcome.success ip) ∨
          env.iter j = IterOutcome.interrupt) := by
  intro n
  induction n with
  | zero =>
    intro i h
    simp [mainLoop] at h
  | succ n ih =>
    intro i h
    rw [mainLoop] at h
    by_cases h1 : env.stopTop i = true
    · rw [if_pos h1] at h
      simp at h
    · rw [if_neg h1] at h
      rcases hit : env.iter (i + 1) with ip | _ | _
      all_goals rw [hit] at h
      all_goals dsimp only at h
      · exact ⟨i + 1, by omega, by omega, Or.inl ⟨ip, hit⟩⟩
      · by_cases h2 : env.stopAfter (i + 1) = true
        · rw [if_pos h2] at h
          simp at h
        · rw [if_neg h2] at h
          obtain ⟨j, hj1, hj2, hj3⟩ := ih (i + 1) h
          exact ⟨j, by omega, by omega, hj3⟩
      · exact ⟨i + 1, by omega, by omega, Or.inr hit⟩

/-- When every iteration fails normally, the retry loop exits 1. -/
theorem mainLoop_all_failure (env : MainEnv)
    (hall : ∀ j, env.iter j = IterOutcome.failure) :
    ∀ (n i : Nat), (mainLoop env n i).1 = 1 := by
  intro n
  induction n with
  | zero =>
    intro i
    rfl
  | succ n ih =>
    intro i
    rw [mainLoop]
    by_cases h1 : env.stopTop i = true
    · rw [if_pos h1]
    · rw [if_neg h1, hall (i + 1)]
      dsimp only
      by_cases h2 : env.stopAfter (i + 1) = true
      · rw [if_pos h2]
      · rw [if_neg h2]
        exact ih (i + 1)

/-- When the retry loop reaches an iteration that returns a match —
every earlier iteration having failed normally with no shutdown
observed at the intervening checks — it exits with code 0. -/
theorem mainLoop_success (env : MainEnv) :
    ∀ (n i j : Nat), i < j → j ≤ i + n →
      (∀ k, i ≤ k → k < j → env.stopTop k = false) →
      (∀ k, i < k → k < j → env.iter k = IterOutcome.failure) →
      (∀ k, i < k → k < j → env.stopAfter k = false) →
      (∃ ip, env.iter j = IterOutcome.success ip) →
      (mainLoop env n i).1 = 0 := by
  intro n
  induction n with
  | zero =>
    intro i j h1 h2 _ _ _ _
    omega
  | succ n ih =>
    intro i j h1 h2 htop hfail hafter hsucc
    rw [mainLoop]
    rw [htop i le_rfl h1]
    simp only [Bool.false_eq_true, if_false]
    by_cases hij : j = i + 1
    · subst hij
      obtain ⟨ip, hip⟩ := hsucc
      rw [hip]
    · have hi1 : i + 1 < j := by omega
      rw [hfail (i + 1) (by omega) hi1]
      dsimp only
      rw [hafter (i + 1) (by omega) hi1]
      simp only [Bool.false_eq_true, if_false]
      exact ih (i + 1) j hi1 (by omega)
        (fun k hk1 hk2 => htop k (by omega) hk2)
        (fun k hk1 hk2 => hfail k (by omega) hk2)
        (fun k hk1 hk2 => hafter k (by omega) hk2) hsucc

/-- Valid configuration values used in the concrete main runs. -/
def cvarsW : ConfigVars :=
  ⟨some ("t"), some ("pr"), some ("vm1"), some ("ext-net")⟩

/-- A main environment whose every iteration is interrupted by the
operator, with no shutdown observed at the loop checks. -/
def menvIntW : MainEnv :=
  ⟨fun _ => IterOutcome.interrupt, fun _ => false, fun _ => false⟩

/-- A main environment whose every iteration fails normally. -/
def menvFailW : MainEnv :=
  ⟨fun _ => IterOutcome.failure, fun _ => false, fun _ => false⟩

/-- A main environment whose first iteration returns a match. -/
def menvSuccW : MainEnv :=
  ⟨fun _ => IterOutcome.success (("10.0.0.15").toList),
    fun _ => false, fun _ => false⟩

/-- C9 counterexample: the process can exit 0 without any matched
address: with valid configuration, when the first iteration raises
KeyboardInterrupt (operator interrupt), the top-level handler exits
with code 0 after one iteration, although no iteration of this
environment ever returns success. -/
theorem C9_exit_code_counterexample :
    main_model cvarsW menvIntW 3 = (0, 1) ∧
    menvIntW.iter = fun _ => IterOutcome.interrupt :=
  ⟨by decide, rfl⟩

/-- C9 amended: invalid configuration exits 1 with no iteration run
(so before any remote call); an exit code of 0 implies that some ran
iteration returned a match or was interrupted by the operator (the
top-level KeyboardInterrupt handler also exits 0); with valid
configuration, when every iteration fails the process exits 1 once
the configured retries are exhausted; and conversely, when a ran
iteration returns a match — every earlier one failing with no
shutdown observed — the process exits 0. -/
theorem C9_exit_codes_amended (c : ConfigVars) (env : MainEnv) (m : Nat) :
    (validate_config c = false → main_model c env m = (1, 0)) ∧
    ((main_model c env m).1 = 0 →
      ∃ j, 1 ≤ j ∧ j ≤ m ∧
        ((∃ ip, env.iter j = IterOutcome.success ip) ∨
          env.iter j = IterOutcome.interrupt)) ∧
    (validate_config c = true →
      (∀ j, env.iter j = IterOutcome.failure) →
      (main_model c env m).1 = 1) ∧
    (validate_config c = true →
      ∀ j, 1 ≤ j → j ≤ m →
        (∀ k, k < j → env.stopTop k = false) →
        (∀ k, 1 ≤ k → k < j → env.iter k = IterOutcome.failure) →
        (∀ k, 1 ≤ k → k < j → env.stopAfter k = false) →
        (∃ ip, env.iter j = IterOutcome.success ip) →
        (main_model c env m).1 = 0) := by
  refine ⟨?_, ?_, ?_, ?_⟩
  · intro h
    rw [main_model, if_pos h]
  · intro h
    rw [main_model] at h
    by_cases hv : validate_config c = false
    · rw [if_pos hv] at h
      simp at h
    · rw [if_neg hv] at h
      obtain ⟨j, hj1, hj2, hj3⟩ := mainLoop_exit_zero env m 0 h
      exact ⟨j, by omega, by omega, hj3⟩
  · intro hv hall
    rw [main_model, hv]
    simp only [Bool.true_eq_false, if_false]
    exact mainLoop_all_failure env hall m 0
  · intro hv j hj1 hj2 htop hfail hafter hsucc
    rw [main_model, hv]
    simp only [Bool.true_eq_false, if_false]
    exact mainLoop_success env m 0 j (by omega) (by omega)
      (fun k _ hk2 => htop k hk2)
      (fun k hk1 hk2 => hfail k (by omega) hk2)
      (fun k hk1 hk2 => hafter k (by omega) hk2) hsucc

/-- Witness for the amended C9: a missing token exits 1 with zero
iterations, with valid configuration three failing iterations exit 1,
and a first-iteration match exits 0. -/
theorem C9_exit_codes_amended_witness :
    main_model ⟨none, some ("pr"), some ("vm1"), some ("x")⟩ menvFailW 3 =
      (1, 0) ∧
    (main_model cvarsW menvFailW 3).1 = 1 ∧
    (main_model cvarsW menvSuccW 3).1 = 0 :=
  ⟨(C9_exit_codes_amended ⟨none, some ("pr"), some ("vm1"), some ("x")⟩
      menvFailW 3).1 (by decide),
    (C9_exit_codes_amended cvarsW menvFailW 3).2.2.1 (by decide)
      (fun _ => rfl),
    (C9_exit_codes_amended cvarsW menvSuccW 3).2.2.2 (by decide)
      1 (by decide) (by decide)
      (fun k _ => rfl)
      (fun k hk1 hk2 => absurd (Nat.lt_of_le_of_lt hk1 hk2) (by omega))
      (fun k _ _ => rfl)
      ⟨(("10.0.0.15").toList), rfl⟩⟩

/-! ## C10 -/

/-- C10 counterexample: `check_ip_in_range` does not return False on
every malformed address: the string 10.0.0.15.99 is not a well-formed
dotted-decimal address (it has five fields), yet the classifier reads
its first four fields and reports membership True. -/
theorem C10_totality_counterexample :
    wellFormedIPv4 (("10.0.0.15.99").toList) = false ∧
    check_ip_in_range (("10.0.0.15.99").toList) (("10.0.0.10").toList)
      (("10.0.0.20").toList) = true := by
  decide

/-- C10 amended: `check_ip_in_range` is a total boolean function that
returns False whenever converting the candidate or either boundary
raises — that is, whenever `ip_to_int` yields no value, which happens
in particular for every string with fewer than four dot-separated
fields; but a malformed string whose first four fields still parse
(extra fields, out-of-range octets) is processed numerically rather
than rejected. -/
theorem C10_totality_amended (ip rs re junk : PyStr)
    (h : ip_to_int ip = none ∨ ip_to_int rs = none ∨ ip_to_int re = none)
    (hlen : (splitDot junk).length < 4) :
    check_ip_in_range ip rs re = false ∧ ip_to_int junk = none := by
  constructor
  · rcases hip : ip_to_int ip with _ | i <;>
      rcases hrs : ip_to_int rs with _ | s <;>
      rcases hre : ip_to_int re with _ | e <;>
      simp_all [check_ip_in_range]
  · rw [ip_to_int]
    rcases hs : splitDot junk with _ | ⟨p0, t0⟩
    · rfl
    rcases t0 with _ | ⟨p1, t1⟩
    · rfl
    rcases t1 with _ | ⟨p2, t2⟩
    · rfl
    rcases t2 with _ | ⟨p3, t3⟩
    · rfl
    rw [hs] at hlen
    simp at hlen
    omega

/-- Witness for the amended C10: the three-field string 10.0.0 is
rejected — the classifier returns False with it in candidate
position, and its conversion yields no value. -/
theorem C10_totality_amended_witness :
    check_ip_in_range (("10.0.0").toList) (("10.0.0.10").toList)
      (("10.0.0.20").toList) = false ∧
    ip_to_int (("10.0.0").toList) = none :=
  C10_totality_amended (("10.0.0").toList) (("10.0.0.10").toList)
    (("10.0.0.20").toList) (("10.0.0").toList)
    (Or.inl (by decide)) (by decide)

end VKCloud
